import Mathlib

/-!
Shallow embedding of the frontier-agents-workshop sample scripts.

The repository consists of standalone Python scripts that call Azure
OpenAI / Azure AI Search SDKs.  The network-facing SDK calls are modelled
as oracle functions (fields of `SearchBackend`, arguments of the loop
drivers); everything the scripts themselves compute (query
classification, result filtering and formatting, the tool-call
resolution loop, environment-variable access, the console read loops,
and the multi-turn conversation state) is translated directly from the
source.  Console printing is side-effect only in the source and is not
modelled.  Python strings are modelled as Lean `String` (lists of code
points), Python `dict.get` fields as `Option String`.
-/

namespace FrontierAgentsWorkshop

/-- Python `needle in haystack` substring containment on strings. -/
def pyContains (haystack needle : String) : Bool :=
  decide (needle.data <:+: haystack.data)

/-- Accumulator loop of `pySplit`: `acc` holds the characters of the
word currently being read, in reverse. -/
def splitWsAux : List Char → List Char → List String
  | [], acc => if acc.isEmpty then [] else [⟨acc.reverse⟩]
  | c :: rest, acc =>
    if c.isWhitespace then
      if acc.isEmpty then splitWsAux rest []
      else ⟨acc.reverse⟩ :: splitWsAux rest []
    else splitWsAux rest (c :: acc)

/-- Python `str.split()` with no argument: split on runs of whitespace,
ignoring leading and trailing whitespace. -/
def pySplit (s : String) : List String :=
  splitWsAux s.data []

/-- Python `str.strip()` with no argument: drop leading and trailing
whitespace. -/
def pyStrip (s : String) : String :=
  ⟨((s.data.dropWhile Char.isWhitespace).reverse.dropWhile Char.isWhitespace).reverse⟩

/-- Python slice `s[:n]` (on code points, like Python on characters). -/
def pyTake (s : String) (n : Nat) : String :=
  ⟨s.data.take n⟩

/-- Python `str.lower()`: lower-case each character. -/
def pyLower (s : String) : String :=
  ⟨s.data.map Char.toLower⟩

/-- Python truthiness-based `a or b` chain link for an optional string:
`None` and the empty string are falsy. -/
def pyOr (o : Option String) (alt : String) : String :=
  match o with
  | some s => if s = "" then alt else s
  | none => alt

/-! ## Search documents: data model

A search result row as consumed by the scripts: `doc.get("title")` and
`doc.get("chunk")` (`select=["chunk", "title"]` in the SDK call).  The
`@search.score` field is only printed in the source and is not modelled. -/

structure SearchDoc where
  title : Option String
  chunk : Option String
  deriving DecidableEq, Repr

/-- One entry of the `formatted` list built by `search_documents` in
`responses_with_ai_search.py` / `responses_with_ai_search_multi_turn.py`
(the source finally serializes the list with `json.dumps`, which we keep
as the list itself). -/
structure FormattedDoc where
  title : String
  content : String
  deriving DecidableEq, Repr

/-! ## search_documents (responses_with_ai_search.py lines 56-144 and
responses_with_ai_search_multi_turn.py lines 66-130; the two copies
differ only in printing and in the `query_type` string passed to the
hybrid SDK call, which is part of the `hybridSearch` oracle here). -/

/-- The keyword list of the `is_document_name` check:
`["content", "article", "about", "what", "how"]`. -/
def content_keywords : List String := ["content", "article", "about", "what", "how"]

/-- `is_document_name`: `len(query_words) <= 2 and "_" in query and not
any(word in query.lower() for word in [...])` where
`query_words = query.strip().split()`. -/
def is_document_name (query : String) : Bool :=
  let query_words := pySplit (pyStrip query)
  decide (query_words.length ≤ 2) && pyContains query "_" &&
    !(content_keywords.any (fun word => pyContains (pyLower query) word))

/-- Python `str.replace(".pdf", "")`: remove every (non-overlapping,
left-to-right) occurrence of the substring `".pdf"`. -/
def removePdf : List Char → List Char
  | '.' :: 'p' :: 'd' :: 'f' :: rest => removePdf rest
  | c :: rest => c :: removePdf rest
  | [] => []

/-- `doc_name = query_words[0].replace(".pdf", "")`.  The guard
`is_document_name` implies `query_words` is nonempty (the query contains
an underscore), so the Python index `[0]` is modelled with `headD ""`. -/
def doc_name (query : String) : String :=
  ⟨removePdf ((pySplit (pyStrip query)).headD "").data⟩

/-- The title filter of the document-name path:
`doc_name.lower() in r.get("title", "").lower()`. -/
def titleMatches (dn : String) (r : SearchDoc) : Bool :=
  pyContains (pyLower (r.title.getD "")) (pyLower dn)

/-- The document-name path after the wildcard fetch:
`[r for r in all_results if doc_name.lower() in r.get("title", "").lower()][:top]`. -/
def docNameResults (all_results : List SearchDoc) (query : String) (top : Nat) :
    List SearchDoc :=
  (all_results.filter (titleMatches (doc_name query))).take top

/-- One entry of the `formatted` list:
`{"title": doc.get("title", "N/A"), "content": doc.get("chunk", "")[:500]}`. -/
def formatResult (doc : SearchDoc) : FormattedDoc :=
  { title := doc.title.getD "N/A", content := pyTake (doc.chunk.getD "") 500 }

/-- The `formatted` list built by the `for doc in results` loop of
`search_documents`. -/
def formatResults (results : List SearchDoc) : List FormattedDoc :=
  results.map formatResult

/-- Oracle for the Azure AI Search SDK.  `simpleSearch text top` models
`search_client.search(search_text=text, top=top, select=["chunk","title"])`
(used both for the wildcard fetch of the document-name path and for the
fallback in the `except` branch); `hybridSearch query top` models the
vector/semantic hybrid call of the `else` branch with all its extra
keyword arguments.  `Except.error` models a raised exception. -/
structure SearchBackend where
  simpleSearch : String → Nat → Except String (List SearchDoc)
  hybridSearch : String → Nat → Except String (List SearchDoc)

/-- `search_documents(query, top=5)` of the two retrieval scripts: the
`try` block runs either the document-name path (wildcard fetch with
`top=50`, then title filter, then `[:top]`) or the hybrid query; on any
exception the `except` branch prints a warning and re-runs a simple
full-text search with the same `query` and `top`; the surviving
`results` are then formatted. -/
def search_documents (b : SearchBackend) (query : String) (top : Nat := 5) :
    Except String (List FormattedDoc) :=
  let primary : Except String (List SearchDoc) :=
    if is_document_name query then
      (b.simpleSearch "*" 50).map (fun all_results => docNameResults all_results query top)
    else
      b.hybridSearch query top
  match primary with
  | .ok results => .ok (formatResults results)
  | .error _ => (b.simpleSearch query top).map formatResults

/-- Follows the claim C10 wording, not the source: "strips a `.pdf`
suffix from the first word" — i.e. removes `".pdf"` only when it is a
suffix, instead of the source's `replace(".pdf", "")` which removes
every occurrence. -/
def docNameClaimed (query : String) : String :=
  let w := (pySplit (pyStrip query)).headD ""
  if ".pdf".data.isSuffixOf w.data then ⟨w.data.take (w.data.length - 4)⟩ else w

/-- The document-name path as claim C10 words it (same filter and
truncation, but with the suffix-stripped name). -/
def docNameResultsClaimed (all_results : List SearchDoc) (query : String) (top : Nat) :
    List SearchDoc :=
  (all_results.filter (titleMatches (docNameClaimed query))).take top

/-! ## responses.py: format_search_results (lines 88-105) -/

/-- A raw search result as consumed by `format_search_results`; the
optional fields model `doc.get(...)` and `reprStr` models `str(doc)`. -/
structure RagDoc where
  title : Option String
  name : Option String
  fileName : Option String
  content : Option String
  chunk : Option String
  text : Option String
  reprStr : String
  deriving DecidableEq, Repr

/-- `doc.get("title") or doc.get("name") or doc.get("fileName") or f"Document {i}"`. -/
def ragTitle (i : Nat) (doc : RagDoc) : String :=
  pyOr doc.title (pyOr doc.name (pyOr doc.fileName ("Document " ++ toString i)))

/-- `doc.get("content") or doc.get("chunk") or doc.get("text") or str(doc)`. -/
def ragContent (doc : RagDoc) : String :=
  pyOr doc.content (pyOr doc.chunk (pyOr doc.text doc.reprStr))

/-- `if len(content) > 2000: content = content[:2000] + "..."`. -/
def truncateContent (content : String) : String :=
  if content.length > 2000 then pyTake content 2000 ++ "..." else content

/-- One element of `context_parts`: `f"[{i}] {title}\n{content}"` with
the 1-based index `i`. -/
def contextPart (i : Nat) (doc : RagDoc) : String :=
  "[" ++ toString i ++ "] " ++ ragTitle i doc ++ "\n" ++ truncateContent (ragContent doc)

/-- The `context_parts` list built by `for i, doc in enumerate(documents, 1)`. -/
def contextParts (documents : List RagDoc) : List String :=
  documents.enum.map (fun p => contextPart (p.1 + 1) p.2)

/-- `format_search_results(documents)`. -/
def format_search_results (documents : List RagDoc) : String :=
  if documents.isEmpty then "No relevant documents found."
  else String.intercalate "\n\n---\n\n" (contextParts documents)

/-! ## The Responses API data model used by the tool-call loops -/

/-- One item of `response.output`.  For function-call items the fields
`name`, `arguments` and `call_id` are the ones the scripts read;
non-function-call items carry whatever `type` the service sent and the
scripts ignore the other fields. -/
structure OutputItem where
  type : String
  name : String
  arguments : String
  call_id : String
  deriving DecidableEq, Repr

/-- A response of `client.responses.create`: the scripts read `.id` and
`.output` (text content extraction is print-only and not modelled). -/
structure Response where
  id : String
  output : List OutputItem
  deriving DecidableEq, Repr

/-- One element of the `tool_outputs` list:
`{"type": "function_call_output", "call_id": ..., "output": ...}`. -/
structure ToolOutput where
  type : String
  call_id : String
  output : String
  deriving DecidableEq, Repr

/-- Oracle for the local search step of the loop body: given the
function call's `arguments` string it models
`search_documents(json.loads(output.arguments)["query"])`; an
`Except.error` models a raised exception (a `json` decode error, a
`KeyError`, or a search exception the inner fallback did not absorb). -/
abbrev SearchFn := String → Except String String

/-- Oracle for the follow-up `client.responses.create(model=...,
previous_response_id=..., input=tool_outputs, tools=[search_tool],
tool_choice=...)` call: arguments are the previous response id, the
packaged tool outputs and the `tool_choice` string; `Except.error`
models a raised SDK exception. -/
abbrev CreateFn := String → List ToolOutput → String → Except String Response

/-- The inner `for output in current_response.output` loop of
`responses_with_ai_search.py` (lines 199-223): recognized calls append a
`function_call_output` entry, an unrecognized function-call name raises
`ValueError(f"Unknown function call: ...")`. -/
def collectToolOutputs (search : SearchFn) : List OutputItem → Except String (List ToolOutput)
  | [] => .ok []
  | output :: rest =>
    if output.type = "function_call" then
      if output.name = "search_knowledge_base" then
        match search output.arguments with
        | .error e => .error e
        | .ok search_results =>
          match collectToolOutputs search rest with
          | .error e => .error e
          | .ok ts =>
            .ok ({ type := "function_call_output", call_id := output.call_id,
                   output := search_results } :: ts)
      else
        .error ("Unknown function call: " ++ output.name)
    else
      collectToolOutputs search rest

/-- The inner `for output in current_response.output` loop of
`process_tool_calls` in `responses_with_ai_search_multi_turn.py`
(lines 163-172): recognized calls append an entry; a function-call item
with any other name matches neither `if` body and is skipped. -/
def collectToolOutputsMulti (search : SearchFn) : List OutputItem → Except String (List ToolOutput)
  | [] => .ok []
  | output :: rest =>
    if output.type = "function_call" then
      if output.name = "search_knowledge_base" then
        match search output.arguments with
        | .error e => .error e
        | .ok search_results =>
          match collectToolOutputsMulti search rest with
          | .error e => .error e
          | .ok ts =>
            .ok ({ type := "function_call_output", call_id := output.call_id,
                   output := search_results } :: ts)
      else
        collectToolOutputsMulti search rest
    else
      collectToolOutputsMulti search rest

/-- `max_iterations = 5` (both scripts). -/
def max_iterations : Nat := 5

/-- `should_allow_tools = iteration < max_iterations - 2`. -/
def should_allow_tools (iteration maxIter : Nat) : Bool :=
  decide (iteration < maxIter - 2)

/-- A record of one follow-up `client.responses.create` call issued by
the loop: the zero-based `iteration` index at which it was sent, the
`tool_choice` it carried, the `previous_response_id`, and how many tool
outputs were sent. -/
structure CallRecord where
  iteration : Nat
  tool_choice : String
  previous_response_id : String
  num_outputs : Nat
  deriving DecidableEq, Repr

/-- Outcome of a run of the tool-call loop: the final response (or the
raised exception), the trace of follow-up requests actually issued, and
the number of times the loop body was entered. -/
structure LoopResult where
  result : Except String Response
  trace : List CallRecord
  iters : Nat
  deriving Repr

/-- The body of `for iteration in range(max_iterations)`, shared by both
scripts (they differ only in the inner collector, passed as `collect`).
`remaining` is `maxIter - iteration`, making Python's bounded `range`
loop a structural recursion; `runToolLoop`/`process_tool_calls` below
start it at `remaining = maxIter`, `iteration = 0`. -/
def toolLoopAux (collect : List OutputItem → Except String (List ToolOutput))
    (create : CreateFn) (maxIter : Nat) :
    Nat → Nat → Response → LoopResult
  | 0, _, current_response => ⟨.ok current_response, [], 0⟩
  | remaining + 1, iteration, current_response =>
    match collect current_response.output with
    | .error e => ⟨.error e, [], 1⟩
    | .ok tool_outputs =>
      if tool_outputs.isEmpty then
        ⟨.ok current_response, [], 1⟩
      else
        let tool_choice := if should_allow_tools iteration maxIter then "auto" else "none"
        let record : CallRecord :=
          ⟨iteration, tool_choice, current_response.id, tool_outputs.length⟩
        match create current_response.id tool_outputs tool_choice with
        | .error e => ⟨.error e, [record], 1⟩
        | .ok next =>
          let r := toolLoopAux collect create maxIter remaining (iteration + 1) next
          ⟨r.result, record :: r.trace, r.iters + 1⟩

/-- The module-level tool-call loop of `responses_with_ai_search.py`
(lines 193-246). -/
def runToolLoop (create : CreateFn) (search : SearchFn) (response : Response) : LoopResult :=
  toolLoopAux (collectToolOutputs search) create max_iterations max_iterations 0 response

/-- The loop of `process_tool_calls` in
`responses_with_ai_search_multi_turn.py` (lines 155-185); the function's
trailing text extraction is print-material and the caller only uses the
final response's `id`, which `LoopResult.result` carries. -/
def process_tool_calls (create : CreateFn) (search : SearchFn) (response : Response) : LoopResult :=
  toolLoopAux (collectToolOutputsMulti search) create max_iterations max_iterations 0 response

/-! ## Environment variables at startup -/

/-- A process environment: an association list of variable/value pairs. -/
abbrev Env := List (String × String)

/-- `os.getenv(v)` / `os.environ.get(v)`: `None` when absent. -/
def osGetenvOpt (env : Env) (v : String) : Option String :=
  (env.find? (fun p => p.1 == v)).map (fun p => p.2)

/-- `os.environ[v]`: raises `KeyError` when absent. -/
def osEnvironGet (env : Env) (v : String) : Except String String :=
  match osGetenvOpt env v with
  | some s => .ok s
  | none => .error ("KeyError: " ++ v)

/-- `required_vars` of `responses.py` `main` (lines 165-166). -/
def required_vars : List String :=
  ["AZURE_OPENAI_ENDPOINT", "AI_SEARCH_ENDPOINT", "AI_SEARCH_INDEX_NAME"]

/-- The missing-variable test of `responses.py` line 168:
`not os.getenv(var) or "your-" in os.getenv(var, "")`. -/
def isMissingVar (env : Env) (v : String) : Bool :=
  match osGetenvOpt env v with
  | none => true
  | some s => s.isEmpty || pyContains s "your-"

/-- `missing = [var for var in required_vars if ...]` of `responses.py`
line 168; when nonempty, `main` prints every element and returns. -/
def missingVars (env : Env) : List String :=
  required_vars.filter (isMissingVar env)

/-- Sequential `os.environ[...]` accesses: stops with the `KeyError` of
the first absent variable. -/
def accessAll (env : Env) : List String → Except String Unit
  | [] => .ok ()
  | v :: rest =>
    match osEnvironGet env v with
    | .error e => .error e
    | .ok _ => accessAll env rest

/-- The required `os.environ[...]` reads of
`responses_with_ai_search.py` module setup, in source order (lines 29,
43, 44); `AI_SEARCH_API_KEY` is read with `.get` and cannot raise. -/
def searchStartupAccesses : List String :=
  ["AZURE_OPENAI_ENDPOINT", "AI_SEARCH_ENDPOINT", "AI_SEARCH_INDEX_NAME"]

/-- Startup of `responses_with_ai_search.py`: direct `os.environ`
accesses, failing on the first absent variable. -/
def searchStartup (env : Env) : Except String Unit :=
  accessAll env searchStartupAccesses

/-- The `os.environ[...]` reads of `azure_ai_with_knowledge_base.py`
`main`, in evaluation order (lines 38, 44, 47, 55). -/
def kbStartupAccesses : List String :=
  ["AZURE_AI_PROJECT_ENDPOINT", "KNOWLEDGE_BASE_MCP_ENDPOINT",
   "KB_PROJECT_CONNECTION_NAME", "AZURE_AI_MODEL_DEPLOYMENT_NAME"]

/-- Startup of `azure_ai_with_knowledge_base.py` `main`: direct
`os.environ` accesses, failing on the first absent variable. -/
def kbStartup (env : Env) : Except String Unit :=
  accessAll env kbStartupAccesses

/-! ## Console read loops -/

/-- What one `input(...)` call can yield: a line of text, end-of-file
(`EOFError`), or a keyboard interrupt (`KeyboardInterrupt`). -/
inductive ConsoleEvent where
  | line (s : String)
  | endOfFile
  | interrupt
  deriving DecidableEq, Repr

/-- What one pass of a read loop does with the console event: leave the
loop (`breakLoop`), skip to the next prompt (`continueLoop`), process
the query (`runQuery`), or let an exception escape the loop and
terminate the process (`uncaught`). -/
inductive ReadOutcome where
  | breakLoop
  | continueLoop
  | runQuery (q : String)
  | uncaught
  deriving DecidableEq, Repr

/-- The exit keywords `['quit', 'exit', 'q']`. -/
def exitKeywords : List String := ["quit", "exit", "q"]

/-- One pass of the `while True` loop of
`responses_with_ai_search_multi_turn.py` `main` (lines 208-218):
`input` is wrapped in `except (EOFError, KeyboardInterrupt): break`;
then `if user_input.lower() in ['quit', 'exit', 'q', '']: break`
(the stripped input, so a blank line also breaks). -/
def multiTurnReadStep : ConsoleEvent → ReadOutcome
  | .endOfFile => .breakLoop
  | .interrupt => .breakLoop
  | .line s =>
    let user_input := pyStrip s
    if pyLower user_input ∈ ["quit", "exit", "q", ""] then .breakLoop
    else .runQuery user_input

/-- One pass of the loop of
`v1_azure_ai_with_azure_ai_search_multi_turn.py` `main` (lines 84-94):
only `EOFError` is caught (`KeyboardInterrupt` escapes), and the same
four-element exit list including the empty string. -/
def v1ReadStep : ConsoleEvent → ReadOutcome
  | .endOfFile => .breakLoop
  | .interrupt => .uncaught
  | .line s =>
    let user_input := pyStrip s
    if pyLower user_input ∈ ["quit", "exit", "q", ""] then .breakLoop
    else .runQuery user_input

/-- One pass of the loop of `azure_ai_with_knowledge_base.py` `main`
(lines 85-98): `input` is not wrapped at all, so `EOFError` and
`KeyboardInterrupt` escape; exit keywords are `["quit", "exit", "q"]`
and a blank line does `continue`. -/
def kbReadStep : ConsoleEvent → ReadOutcome
  | .endOfFile => .uncaught
  | .interrupt => .uncaught
  | .line s =>
    let user_input := pyStrip s
    if pyLower user_input ∈ ["quit", "exit", "q"] then .breakLoop
    else if user_input = "" then .continueLoop
    else .runQuery user_input

/-- A read-loop pass ends the interactive session when it breaks the
loop or lets an exception escape. -/
def endsSession : ReadOutcome → Bool
  | .breakLoop => true
  | .uncaught => true
  | .continueLoop => false
  | .runQuery _ => false

/-! ## Multi-turn conversation state (responses_with_ai_search_multi_turn.py main) -/

/-- `any(output.type == "function_call" for output in response.output)`. -/
def hasFunctionCall (output : List OutputItem) : Bool :=
  output.any (fun o => o.type == "function_call")

/-- The body of the `try` block of one conversation turn (lines
222-263): create the initial response (the oracle `createInitial`
receives the current `previous_response_id`); if it contains tool calls,
run `process_tool_calls` and yield the final response's id, otherwise
yield the initial response's id.  `Except.error` models a raised
exception anywhere in the turn. -/
def turnBody (createInitial : Option String → Except String Response)
    (create : CreateFn) (search : SearchFn) (previous_response_id : Option String) :
    Except String String :=
  match createInitial previous_response_id with
  | .error e => .error e
  | .ok response =>
    if hasFunctionCall response.output then
      match (process_tool_calls create search response).result with
      | .ok final_response => .ok final_response.id
      | .error e => .error e
    else
      .ok response.id

/-- One conversation turn's effect on `previous_response_id`: the
`except Exception` handler of `main` prints the error and leaves the
variable unchanged; a successful turn stores the new id. -/
def mainTurn (createInitial : Option String → Except String Response)
    (create : CreateFn) (search : SearchFn) (previous_response_id : Option String) :
    Option String :=
  match turnBody createInitial create search previous_response_id with
  | .ok newId => some newId
  | .error _ => previous_response_id

/-! ## Concrete fixtures used by witnesses and counterexamples -/

/-- A search tool that always returns an empty JSON result list. -/
def searchW : SearchFn := fun _ => .ok "[]"

/-- A service that always answers with one more recognized tool call. -/
def createW : CreateFn := fun _ _ _ =>
  .ok ⟨"resp_next", [⟨"function_call", "search_knowledge_base", "query", "call_n"⟩]⟩

/-- An initial response holding one recognized tool call. -/
def responseW : Response :=
  ⟨"resp_0", [⟨"function_call", "search_knowledge_base", "query", "call_0"⟩]⟩

/-- A response with no function-call items. -/
def noCallResponse : Response := ⟨"resp_plain", [⟨"message", "", "", ""⟩]⟩

/-- A response whose only function call names an unrecognized tool. -/
def unknownToolResponse : Response :=
  ⟨"resp_1", [⟨"function_call", "other_tool", "query", "call_1"⟩]⟩

/-! ## Helper lemmas about the tool-call loop -/

theorem collectToolOutputs_cons (search : SearchFn) (o : OutputItem) (rest : List OutputItem) :
    collectToolOutputs search (o :: rest)
      = if o.type = "function_call" then
          if o.name = "search_knowledge_base" then
            match search o.arguments with
            | .error e => .error e
            | .ok search_results =>
              match collectToolOutputs search rest with
              | .error e => .error e
              | .ok ts =>
                .ok ({ type := "function_call_output", call_id := o.call_id,
                       output := search_results } :: ts)
          else
            .error ("Unknown function call: " ++ o.name)
        else
          collectToolOutputs search rest := rfl

theorem collectToolOutputsMulti_cons (search : SearchFn) (o : OutputItem) (rest : List OutputItem) :
    collectToolOutputsMulti search (o :: rest)
      = if o.type = "function_call" then
          if o.name = "search_knowledge_base" then
            match search o.arguments with
            | .error e => .error e
            | .ok search_results =>
              match collectToolOutputsMulti search rest with
              | .error e => .error e
              | .ok ts =>
                .ok ({ type := "function_call_output", call_id := o.call_id,
                       output := search_results } :: ts)
          else
            collectToolOutputsMulti search rest
        else
          collectToolOutputsMulti search rest := rfl

theorem toolLoopAux_iters_le (collect : List OutputItem → Except String (List ToolOutput))
    (create : CreateFn) (maxIter : Nat) :
    ∀ remaining iteration cur,
      (toolLoopAux collect create maxIter remaining iteration cur).iters ≤ remaining := by
  intro remaining
  induction remaining with
  | zero => intro iteration cur; exact Nat.le_refl 0
  | succ n ih =>
    intro iteration cur
    unfold toolLoopAux
    split
    · exact Nat.succ_le_succ (Nat.zero_le n)
    · split
      · exact Nat.succ_le_succ (Nat.zero_le n)
      · dsimp only
        split
        · exact Nat.succ_le_succ (Nat.zero_le n)
        · exact Nat.succ_le_succ (ih _ _)

theorem toolLoopAux_trace_length_le (collect : List OutputItem → Except String (List ToolOutput))
    (create : CreateFn) (maxIter : Nat) :
    ∀ remaining iteration cur,
      (toolLoopAux collect create maxIter remaining iteration cur).trace.length ≤ remaining := by
  intro remaining
  induction remaining with
  | zero => intro iteration cur; exact Nat.le_refl 0
  | succ n ih =>
    intro iteration cur
    unfold toolLoopAux
    split
    · exact Nat.zero_le _
    · split
      · exact Nat.zero_le _
      · dsimp only
        split
        · exact Nat.succ_le_succ (Nat.zero_le n)
        · exact Nat.succ_le_succ (ih _ _)

theorem toolLoopAux_no_calls (collect : List OutputItem → Except String (List ToolOutput))
    (create : CreateFn) (maxIter remaining iteration : Nat) (cur : Response)
    (h : collect cur.output = .ok []) :
    toolLoopAux collect create maxIter (remaining + 1) iteration cur = ⟨.ok cur, [], 1⟩ := by
  unfold toolLoopAux
  rw [h]
  rfl

theorem collectToolOutputs_of_no_function_call (search : SearchFn) :
    ∀ output : List OutputItem, (∀ o ∈ output, o.type ≠ "function_call") →
      collectToolOutputs search output = .ok [] := by
  intro output h
  induction output with
  | nil => rfl
  | cons o rest ih =>
    unfold collectToolOutputs
    rw [if_neg (h o (List.mem_cons_self o rest))]
    exact ih (fun o' ho' => h o' (List.mem_cons_of_mem o ho'))

theorem collectToolOutputsMulti_of_no_function_call (search : SearchFn) :
    ∀ output : List OutputItem, (∀ o ∈ output, o.type ≠ "function_call") →
      collectToolOutputsMulti search output = .ok [] := by
  intro output h
  induction output with
  | nil => rfl
  | cons o rest ih =>
    unfold collectToolOutputsMulti
    rw [if_neg (h o (List.mem_cons_self o rest))]
    exact ih (fun o' ho' => h o' (List.mem_cons_of_mem o ho'))

theorem tool_choice_eq (iteration maxIter : Nat) :
    (if should_allow_tools iteration maxIter then "auto" else "none")
      = if iteration < maxIter - 2 then "auto" else "none" := by
  simp [should_allow_tools]

theorem toolLoopAux_trace_spec (collect : List OutputItem → Except String (List ToolOutput))
    (create : CreateFn) (maxIter : Nat) :
    ∀ remaining iteration cur rec,
      rec ∈ (toolLoopAux collect create maxIter remaining iteration cur).trace →
      iteration ≤ rec.iteration ∧ rec.iteration < iteration + remaining ∧
        rec.tool_choice = if rec.iteration < maxIter - 2 then "auto" else "none" := by
  intro remaining
  induction remaining with
  | zero =>
    intro iteration cur rec h
    simp only [toolLoopAux, List.not_mem_nil] at h
  | succ n ih =>
    intro iteration cur rec h
    unfold toolLoopAux at h
    split at h
    · simp only [List.not_mem_nil] at h
    · split at h
      · simp only [List.not_mem_nil] at h
      · dsimp only at h
        rw [tool_choice_eq] at h
        split at h
        · simp only [List.mem_singleton] at h
          subst h
          refine ⟨Nat.le_refl _, ?_, rfl⟩
          show iteration < iteration + (n + 1)
          omega
        · simp only [List.mem_cons] at h
          rcases h with h | h
          · subst h
            refine ⟨Nat.le_refl _, ?_, rfl⟩
            show iteration < iteration + (n + 1)
            omega
          · obtain ⟨h1, h2, h3⟩ := ih _ _ _ h
            exact ⟨by omega, by omega, h3⟩

/-! ## Claim theorems -/

/-- C1: the tool-call resolution loops of `responses_with_ai_search.py`
(module level) and `responses_with_ai_search_multi_turn.py`
(`process_tool_calls`) enter their loop body at most 5 times and issue
at most 5 follow-up requests, whatever the service (`create`), the
search tool (`search`) and the initial response do. -/
theorem tool_loop_within_iteration_bound :
    ∀ (create : CreateFn) (search : SearchFn) (response : Response)
      (create2 : CreateFn) (search2 : SearchFn) (response2 : Response),
      (runToolLoop create search response).iters ≤ 5 ∧
      (runToolLoop create search response).trace.length ≤ 5 ∧
      (process_tool_calls create2 search2 response2).iters ≤ 5 ∧
      (process_tool_calls create2 search2 response2).trace.length ≤ 5 := by
  intro create search response create2 search2 response2
  exact ⟨toolLoopAux_iters_le _ _ _ _ _ _, toolLoopAux_trace_length_le _ _ _ _ _ _,
    toolLoopAux_iters_le _ _ _ _ _ _, toolLoopAux_trace_length_le _ _ _ _ _ _⟩

/-- C2: at any iteration of either tool-call loop, a current response
with zero function-call output items makes the loop collect an empty
`tool_outputs` list and break at once: the loop returns that response,
issues no further request (empty trace), and enters the body exactly
once more. -/
theorem tool_loop_exits_on_no_function_calls :
    ∀ (create : CreateFn) (search : SearchFn) (remaining iteration : Nat) (cur : Response),
      (∀ o ∈ cur.output, o.type ≠ "function_call") →
      toolLoopAux (collectToolOutputs search) create max_iterations (remaining + 1) iteration cur
          = ⟨.ok cur, [], 1⟩ ∧
      toolLoopAux (collectToolOutputsMulti search) create max_iterations (remaining + 1) iteration cur
          = ⟨.ok cur, [], 1⟩ ∧
      runToolLoop create search cur = ⟨.ok cur, [], 1⟩ ∧
      process_tool_calls create search cur = ⟨.ok cur, [], 1⟩ := by
  intro create search remaining iteration cur h
  refine ⟨toolLoopAux_no_calls _ _ _ _ _ _ (collectToolOutputs_of_no_function_call search _ h),
    toolLoopAux_no_calls _ _ _ _ _ _ (collectToolOutputsMulti_of_no_function_call search _ h),
    toolLoopAux_no_calls _ _ _ 4 _ _ (collectToolOutputs_of_no_function_call search _ h),
    toolLoopAux_no_calls _ _ _ 4 _ _ (collectToolOutputsMulti_of_no_function_call search _ h)⟩

/-- C3: every follow-up request either loop sends carries
`tool_choice = "auto"` exactly when its zero-based iteration index is
below `max_iterations - 2 = 3`, and `"none"` on the later iterations,
all indices being below 5. -/
theorem tool_choice_tightens_with_iteration :
    ∀ (create : CreateFn) (search : SearchFn) (response : Response) (rec : CallRecord),
      (rec ∈ (runToolLoop create search response).trace →
        rec.iteration < 5 ∧
        rec.tool_choice = if rec.iteration < 3 then "auto" else "none") ∧
      (rec ∈ (process_tool_calls create search response).trace →
        rec.iteration < 5 ∧
        rec.tool_choice = if rec.iteration < 3 then "auto" else "none") := by
  intro create search response rec
  constructor
  · intro h
    obtain ⟨-, h2, h3⟩ := toolLoopAux_trace_spec _ _ _ _ _ _ _ h
    exact ⟨h2, h3⟩
  · intro h
    obtain ⟨-, h2, h3⟩ := toolLoopAux_trace_spec _ _ _ _ _ _ _ h
    exact ⟨h2, h3⟩

/-- Witness for C2 at a concrete response without function calls. -/
theorem tool_loop_exits_on_no_function_calls_witness :
    runToolLoop createW searchW noCallResponse = ⟨.ok noCallResponse, [], 1⟩ ∧
    process_tool_calls createW searchW noCallResponse = ⟨.ok noCallResponse, [], 1⟩ :=
  have h := tool_loop_exits_on_no_function_calls createW searchW 4 0 noCallResponse
    (by decide)
  ⟨h.2.2.1, h.2.2.2⟩

/-- Witness for C3: the follow-up request of iteration 3 in a concrete
five-iteration run carries `tool_choice = "none"`. -/
theorem tool_choice_tightens_with_iteration_witness :
    (⟨3, "none", "resp_next", 1⟩ : CallRecord) ∈ (runToolLoop createW searchW responseW).trace ∧
    (⟨3, "none", "resp_next", 1⟩ : CallRecord).iteration < 5 ∧
    (⟨3, "none", "resp_next", 1⟩ : CallRecord).tool_choice
      = if (⟨3, "none", "resp_next", 1⟩ : CallRecord).iteration < 3 then "auto" else "none" :=
  have hmem : (⟨3, "none", "resp_next", 1⟩ : CallRecord)
      ∈ (runToolLoop createW searchW responseW).trace := by decide
  have h := (tool_choice_tightens_with_iteration createW searchW responseW
    ⟨3, "none", "resp_next", 1⟩).1 hmem
  ⟨hmem, h.1, h.2⟩

/-- With the multi-turn collector, function-call items naming an
unrecognized tool can be filtered away without changing the collected
outputs: they are skipped silently. -/
theorem collectToolOutputsMulti_skips_unknown (search : SearchFn) :
    ∀ output : List OutputItem,
      collectToolOutputsMulti search
          (output.filter (fun o => !(o.type == "function_call" && o.name != "search_knowledge_base")))
        = collectToolOutputsMulti search output := by
  intro output
  induction output with
  | nil => rfl
  | cons o rest ih =>
    by_cases hdrop : (o.type == "function_call" && o.name != "search_knowledge_base") = true
    · have ht : o.type = "function_call" := by
        simpa using (Bool.and_eq_true _ _ |>.mp hdrop).1
      have hn : o.name ≠ "search_knowledge_base" := by
        simpa using (Bool.and_eq_true _ _ |>.mp hdrop).2
      have hpo : (!(o.type == "function_call" && o.name != "search_knowledge_base")) = false := by
        simp [hdrop]
      simp only [List.filter_cons, hpo, Bool.false_eq_true, if_false]
      rw [ih, collectToolOutputsMulti_cons, if_pos ht, if_neg hn]
    · have hpo : (!(o.type == "function_call" && o.name != "search_knowledge_base")) = true := by
        simp only [Bool.not_eq_true'] at *
        exact Bool.not_eq_true _ |>.mp hdrop
      simp only [List.filter_cons, hpo, if_true]
      rw [collectToolOutputsMulti_cons, collectToolOutputsMulti_cons, ih]

/-- C4 (amended): when the search tool itself returns normally, the
single-turn script's inner loop raises
`ValueError("Unknown function call: ...")` naming an unrecognized tool as
soon as the output holds a function-call item with a name other than
"search_knowledge_base"; the multi-turn script's `process_tool_calls`
never raises that error — its collector always succeeds, skipping
unrecognized function-call items silently. -/
theorem unknown_tool_single_turn_raises_multi_turn_skips :
    ∀ (search : String → String) (output : List OutputItem),
      (output.any (fun o => o.type == "function_call" && o.name != "search_knowledge_base") = true →
        ∃ o, o ∈ output ∧ o.type = "function_call" ∧ o.name ≠ "search_knowledge_base" ∧
          collectToolOutputs (fun a => .ok (search a)) output
            = .error ("Unknown function call: " ++ o.name)) ∧
      (∃ ts, collectToolOutputsMulti (fun a => .ok (search a)) output = .ok ts) ∧
      collectToolOutputsMulti (fun a => .ok (search a))
          (output.filter (fun o => !(o.type == "function_call" && o.name != "search_knowledge_base")))
        = collectToolOutputsMulti (fun a => .ok (search a)) output := by
  intro search output
  refine ⟨?_, ?_, collectToolOutputsMulti_skips_unknown _ output⟩
  · intro h
    induction output with
    | nil => simp at h
    | cons o rest ih =>
      by_cases ht : o.type = "function_call"
      · by_cases hn : o.name = "search_knowledge_base"
        · have hrest : rest.any
              (fun o => o.type == "function_call" && o.name != "search_knowledge_base") = true := by
            simpa [List.any_cons, ht, hn] using h
          obtain ⟨o', ho', hto', hno', heq⟩ := ih hrest
          refine ⟨o', List.mem_cons_of_mem _ ho', hto', hno', ?_⟩
          rw [collectToolOutputs_cons, if_pos ht, if_pos hn]
          simp only [heq]
        · refine ⟨o, List.mem_cons_self _ _, ht, hn, ?_⟩
          rw [collectToolOutputs_cons, if_pos ht, if_neg hn]
      · have hrest : rest.any
            (fun o => o.type == "function_call" && o.name != "search_knowledge_base") = true := by
          simpa [List.any_cons, ht] using h
        obtain ⟨o', ho', hto', hno', heq⟩ := ih hrest
        refine ⟨o', List.mem_cons_of_mem _ ho', hto', hno', ?_⟩
        rw [collectToolOutputs_cons, if_neg ht]
        exact heq
  · induction output with
    | nil => exact ⟨[], rfl⟩
    | cons o rest ih =>
      obtain ⟨ts, hts⟩ := ih
      by_cases ht : o.type = "function_call"
      · by_cases hn : o.name = "search_knowledge_base"
        · refine ⟨⟨"function_call_output", o.call_id, search o.arguments⟩ :: ts, ?_⟩
          rw [collectToolOutputsMulti_cons, if_pos ht, if_pos hn]
          simp only [hts]
        · refine ⟨ts, ?_⟩
          rw [collectToolOutputsMulti_cons, if_pos ht, if_neg hn]
          exact hts
      · refine ⟨ts, ?_⟩
        rw [collectToolOutputsMulti_cons, if_neg ht]
        exact hts

/-- Witness for the amended C4 at a concrete output list holding one
recognized and one unrecognized function call. -/
theorem unknown_tool_single_turn_raises_witness :
    (∃ o, o ∈ unknownToolResponse.output ∧ o.type = "function_call" ∧
      o.name ≠ "search_knowledge_base" ∧
      collectToolOutputs (fun a => .ok ((fun _ => "[]") a)) unknownToolResponse.output
        = .error ("Unknown function call: " ++ o.name)) ∧
    (∃ ts, collectToolOutputsMulti (fun a => .ok ((fun _ => "[]") a)) unknownToolResponse.output
        = .ok ts) :=
  have h := unknown_tool_single_turn_raises_multi_turn_skips (fun _ => "[]")
    unknownToolResponse.output
  ⟨h.1 (by decide), h.2.1⟩

/-- C4 counterexample: the multi-turn driver (`process_tool_calls`),
run on a response whose only function-call item names the unknown tool
"other_tool", does not raise any error: it returns the response
unchanged and issues no follow-up request, contradicting the claim that
every driver raises a distinct error for an unrecognized tool name. -/
theorem unknown_tool_silently_skipped_counterexample :
    hasFunctionCall unknownToolResponse.output = true ∧
    (unknownToolResponse.output.any
      (fun o => o.type == "function_call" && o.name != "search_knowledge_base")) = true ∧
    process_tool_calls createW searchW unknownToolResponse
      = ⟨.ok unknownToolResponse, [], 1⟩ :=
  ⟨rfl, rfl, rfl⟩

/-- C5 (amended): only `responses.py` lists the missing required
variables — its `missing` list holds exactly the required variables that
are unset, empty or still a placeholder, in `required_vars` order; the
scripts that read `os.environ` directly (`responses_with_ai_search.py`,
`azure_ai_with_knowledge_base.py`) instead stop at the `KeyError` of the
first absent variable in access order. -/
theorem missing_env_reporting :
    (∀ (env : Env) (v : String),
      v ∈ missingVars env ↔ v ∈ required_vars ∧ isMissingVar env v = true) ∧
    (∀ (env : Env) (vars : List String),
      accessAll env vars
        = match vars.find? (fun v => (osGetenvOpt env v).isNone) with
          | some v => .error ("KeyError: " ++ v)
          | none => .ok ()) ∧
    (∀ env : Env, searchStartup env
        = match searchStartupAccesses.find? (fun v => (osGetenvOpt env v).isNone) with
          | some v => .error ("KeyError: " ++ v)
          | none => .ok ()) ∧
    (∀ env : Env, kbStartup env
        = match kbStartupAccesses.find? (fun v => (osGetenvOpt env v).isNone) with
          | some v => .error ("KeyError: " ++ v)
          | none => .ok ()) := by
  have haccess : ∀ (env : Env) (vars : List String),
      accessAll env vars
        = match vars.find? (fun v => (osGetenvOpt env v).isNone) with
          | some v => .error ("KeyError: " ++ v)
          | none => .ok () := by
    intro env vars
    induction vars with
    | nil => rfl
    | cons v rest ih =>
      unfold accessAll osEnvironGet
      cases hv : osGetenvOpt env v with
      | none => simp [List.find?_cons, hv]
      | some s => simp [List.find?_cons, hv, ih]
  exact ⟨fun env v => List.mem_filter, haccess,
    fun env => haccess env searchStartupAccesses, fun env => haccess env kbStartupAccesses⟩

/-- C5 counterexample: with an empty environment all three variables
required by `responses_with_ai_search.py` are missing, but its startup
fails with a `KeyError` naming only the first one — the message does not
mention `AI_SEARCH_ENDPOINT` — so that script does not list all missing
variables, while `responses.py` would report all three. -/
theorem missing_env_first_access_counterexample :
    searchStartup [] = .error "KeyError: AZURE_OPENAI_ENDPOINT" ∧
    missingVars [] = ["AZURE_OPENAI_ENDPOINT", "AI_SEARCH_ENDPOINT", "AI_SEARCH_INDEX_NAME"] ∧
    osGetenvOpt [] "AI_SEARCH_ENDPOINT" = none ∧
    pyContains "KeyError: AZURE_OPENAI_ENDPOINT" "AI_SEARCH_ENDPOINT" = false ∧
    kbStartup [] = .error "KeyError: AZURE_AI_PROJECT_ENDPOINT" := by
  refine ⟨rfl, rfl, rfl, by decide, rfl⟩

/-- C6: the `formatted` list of `search_documents` has one entry per
result, its i-th entry is built from the i-th result with the chunk
truncated to its first 500 characters; `format_search_results` of
`responses.py` likewise builds its i-th context part from the i-th
document and truncates content longer than 2000 characters to 2000
characters plus `"..."`. -/
theorem formatting_truncates_and_preserves_order :
    ∀ (results : List SearchDoc) (documents : List RagDoc) (i : Nat) (s : String),
      (formatResults results).length = results.length ∧
      (formatResults results)[i]? = (results[i]?).map formatResult ∧
      (∀ doc : SearchDoc, (formatResult doc).content = pyTake (doc.chunk.getD "") 500 ∧
        (formatResult doc).content.length ≤ 500) ∧
      (contextParts documents).length = documents.length ∧
      (contextParts documents)[i]? = (documents[i]?).map (fun doc => contextPart (i + 1) doc) ∧
      (s.length > 2000 → truncateContent s = pyTake s 2000 ++ "..." ∧
        (truncateContent s).length = 2003) ∧
      (s.length ≤ 2000 → truncateContent s = s) := by
  intro results documents i s
  refine ⟨List.length_map _ _, List.getElem?_map _ _ _, ?_, ?_, ?_, ?_, ?_⟩
  · intro doc
    refine ⟨rfl, ?_⟩
    show ((doc.chunk.getD "").data.take 500).length ≤ 500
    rw [List.length_take]
    exact min_le_left _ _
  · show (documents.enum.map _).length = documents.length
    rw [List.length_map, List.enum_length]
  · show (documents.enum.map _)[i]? = _
    rw [List.getElem?_map, List.getElem?_enum, Option.map_map]
    rfl
  · intro hlen
    have hne : ¬ s.length ≤ 2000 := by omega
    constructor
    · unfold truncateContent
      rw [if_pos hlen]
    · unfold truncateContent
      rw [if_pos hlen, String.length_append]
      have htake : (pyTake s 2000).length = 2000 := by
        show (s.data.take 2000).length = 2000
        rw [List.length_take]
        have : s.data.length = s.length := rfl
        omega
      rw [htake]
      rfl
  · intro hlen
    unfold truncateContent
    rw [if_neg (by omega)]

/-- A 2100-character string used in the C6 witness. -/
def longContent : String := ⟨List.replicate 2100 'x'⟩

/-- Witness for C6 at concrete inputs: a long string is truncated to
2000 characters plus an ellipsis, a short one is kept. -/
theorem formatting_truncates_witness :
    longContent.length > 2000 ∧
    truncateContent longContent = pyTake longContent 2000 ++ "..." ∧
    (truncateContent longContent).length = 2003 ∧
    ("short".length ≤ 2000 ∧ truncateContent "short" = "short") :=
  have hlong : longContent.length > 2000 := by
    show (List.replicate 2100 'x').length > 2000
    rw [List.length_replicate]
    omega
  have h := formatting_truncates_and_preserves_order [] [] 0 longContent
  have h2 := formatting_truncates_and_preserves_order [] [] 0 "short"
  ⟨hlong, (h.2.2.2.2.2.1 hlong).1, (h.2.2.2.2.2.1 hlong).2,
    by decide, h2.2.2.2.2.2.2 (by decide)⟩

/-- C7: if the primary path of `search_documents` raises — the wildcard
fetch on the document-name path, or the hybrid query otherwise — the
function returns the formatted results of a simple full-text search with
the same query string and the same top count instead of propagating the
exception. -/
theorem search_falls_back_on_failure :
    ∀ (b : SearchBackend) (query : String) (top : Nat) (e : String),
      (is_document_name query = true → b.simpleSearch "*" 50 = .error e) →
      (is_document_name query = false → b.hybridSearch query top = .error e) →
      search_documents b query top = (b.simpleSearch query top).map formatResults := by
  intro b query top e h1 h2
  unfold search_documents
  dsimp only
  by_cases hq : is_document_name query = true
  · rw [if_pos hq, h1 hq]
    rfl
  · rw [if_neg hq, h2 (Bool.not_eq_true _ |>.mp hq)]

/-- A backend whose wildcard fetch and hybrid query both raise while the
plain full-text search succeeds, used in the C7 witness. -/
def failingBackend : SearchBackend :=
  { simpleSearch := fun q _ => if q = "*" then .error "boom" else .ok [⟨some "t", some "c"⟩]
    hybridSearch := fun _ _ => .error "boom" }

/-- Witness for C7 at a concrete backend and document-name query. -/
theorem search_falls_back_witness :
    search_documents failingBackend "a_b" 5
      = (failingBackend.simpleSearch "a_b" 5).map formatResults ∧
    search_documents failingBackend "a_b" 5 = .ok [⟨"t", "c"⟩] :=
  have h := search_falls_back_on_failure failingBackend "a_b" 5 "boom"
    (fun _ => rfl) (fun hfalse => absurd hfalse (by decide))
  ⟨h, by rw [h]; rfl⟩

/-! ## Read-loop helpers and claims -/

theorem pyLower_eq_empty (t : String) : pyLower t = "" ↔ t = "" := by
  cases t with
  | mk data =>
    constructor
    · intro h
      have hd : (pyLower ⟨data⟩).data = List.map Char.toLower data := rfl
      rw [h] at hd
      have : data = [] := List.map_eq_nil_iff.mp hd.symm
      rw [this]
    · intro h
      rw [h]
      rfl

theorem mem_exit4_iff (t : String) :
    pyLower t ∈ ["quit", "exit", "q", ""] ↔ (pyLower t ∈ exitKeywords ∨ t = "") := by
  rw [← pyLower_eq_empty t]
  simp only [exitKeywords, List.mem_cons, List.mem_singleton, List.not_mem_nil, or_false]
  tauto

/-- C8 (amended): the read loop of each interactive script ends the
session exactly on: EOF or interrupt; a line whose stripped, lowercased
text is an exit keyword; or — in the two multi-turn scripts but not in
the knowledge-base script — a line that is empty after stripping. -/
theorem read_loop_exit_conditions :
    ∀ ev : ConsoleEvent,
      (endsSession (multiTurnReadStep ev) = true ↔
        ev = .endOfFile ∨ ev = .interrupt ∨
          ∃ s, ev = .line s ∧ (pyLower (pyStrip s) ∈ exitKeywords ∨ pyStrip s = "")) ∧
      (endsSession (v1ReadStep ev) = true ↔
        ev = .endOfFile ∨ ev = .interrupt ∨
          ∃ s, ev = .line s ∧ (pyLower (pyStrip s) ∈ exitKeywords ∨ pyStrip s = "")) ∧
      (endsSession (kbReadStep ev) = true ↔
        ev = .endOfFile ∨ ev = .interrupt ∨
          ∃ s, ev = .line s ∧ pyLower (pyStrip s) ∈ exitKeywords) := by
  intro ev
  cases ev with
  | endOfFile =>
    refine ⟨?_, ?_, ?_⟩ <;>
      simp [multiTurnReadStep, v1ReadStep, kbReadStep, endsSession]
  | interrupt =>
    refine ⟨?_, ?_, ?_⟩ <;>
      simp [multiTurnReadStep, v1ReadStep, kbReadStep, endsSession]
  | line s =>
    have hmulti : endsSession (multiTurnReadStep (.line s)) = true
        ↔ pyLower (pyStrip s) ∈ ["quit", "exit", "q", ""] := by
      simp only [multiTurnReadStep]
      by_cases h : pyLower (pyStrip s) ∈ ["quit", "exit", "q", ""]
      · rw [if_pos h]
        simp [endsSession, h]
      · rw [if_neg h]
        simp [endsSession, h]
    have hv1 : endsSession (v1ReadStep (.line s)) = true
        ↔ pyLower (pyStrip s) ∈ ["quit", "exit", "q", ""] := by
      simp only [v1ReadStep]
      by_cases h : pyLower (pyStrip s) ∈ ["quit", "exit", "q", ""]
      · rw [if_pos h]
        simp [endsSession, h]
      · rw [if_neg h]
        simp [endsSession, h]
    have hkb : endsSession (kbReadStep (.line s)) = true
        ↔ pyLower (pyStrip s) ∈ ["quit", "exit", "q"] := by
      simp only [kbReadStep]
      by_cases h : pyLower (pyStrip s) ∈ ["quit", "exit", "q"]
      · rw [if_pos h]
        simp [endsSession, h]
      · rw [if_neg h]
        by_cases he : pyStrip s = ""
        · rw [if_pos he]
          simp [endsSession, h]
        · rw [if_neg he]
          simp [endsSession, h]
    refine ⟨?_, ?_, ?_⟩
    · rw [hmulti, mem_exit4_iff]
      simp [ConsoleEvent.line.injEq]
    · rw [hv1, mem_exit4_iff]
      simp [ConsoleEvent.line.injEq]
    · rw [hkb]
      show _ ↔ _ ∨ _ ∨ ∃ s', ConsoleEvent.line s = ConsoleEvent.line s' ∧ _
      simp [ConsoleEvent.line.injEq, exitKeywords]

/-- C8 counterexample: a whitespace-only input line ends the session in
both multi-turn scripts although it is neither an exit keyword nor an
interrupt or end-of-file, contradicting the claim that only those can
terminate the loop; the knowledge-base script instead continues. -/
theorem blank_line_ends_session_counterexample :
    multiTurnReadStep (.line "   ") = .breakLoop ∧
    v1ReadStep (.line "   ") = .breakLoop ∧
    (pyLower (pyStrip "   ") ∈ exitKeywords → False) ∧
    ConsoleEvent.line "   " ≠ .endOfFile ∧
    ConsoleEvent.line "   " ≠ .interrupt ∧
    kbReadStep (.line "   ") = .continueLoop := by
  refine ⟨by decide, by decide, by decide, by decide, by decide, by decide⟩

/-- C9: one conversation turn of the multi-turn script updates
`previous_response_id` exactly once on success — to the tool-loop's
final response id when the initial response contained function calls,
otherwise to the initial response's id — and leaves it unchanged when an
exception is raised anywhere in the turn. -/
theorem previous_response_id_update :
    ∀ (createInitial : Option String → Except String Response) (create : CreateFn)
      (search : SearchFn) (prev : Option String),
      (∀ e, turnBody createInitial create search prev = .error e →
        mainTurn createInitial create search prev = prev) ∧
      (∀ r, createInitial prev = .ok r → hasFunctionCall r.output = false →
        mainTurn createInitial create search prev = some r.id) ∧
      (∀ r final, createInitial prev = .ok r → hasFunctionCall r.output = true →
        (process_tool_calls create search r).result = .ok final →
        mainTurn createInitial create search prev = some final.id) := by
  intro ci c s prev
  refine ⟨?_, ?_, ?_⟩
  · intro e he
    unfold mainTurn
    rw [he]
  · intro r hr hfc
    unfold mainTurn turnBody
    rw [hr]
    simp [hfc]
  · intro r final hr hfc hloop
    unfold mainTurn turnBody
    rw [hr]
    simp [hfc, hloop]

/-- An initial-create oracle that always succeeds without tool calls. -/
def createInitialW : Option String → Except String Response := fun _ => .ok noCallResponse

/-- Witness for C9: a successful no-tool-call turn stores the new
response id; a turn whose initial request raises leaves the id as it
was. -/
theorem previous_response_id_update_witness :
    mainTurn createInitialW createW searchW none = some "resp_plain" ∧
    mainTurn (fun _ => .error "boom") createW searchW (some "prev") = some "prev" :=
  ⟨(previous_response_id_update createInitialW createW searchW none).2.1
      noCallResponse rfl rfl,
    (previous_response_id_update (fun _ => .error "boom") createW searchW (some "prev")).1
      "boom" rfl⟩

/-! ## C10: the document-name lookup path -/

/-- C10 (amended): `is_document_name` holds exactly when the query has
at most two whitespace-separated words, contains an underscore, and
contains none of the keyword substrings when lowercased; in that case
`search_documents` keeps, of the 50 wildcard-fetched documents, those
whose lowercased title contains the lowercased first word with every
occurrence of ".pdf" removed (the source's `replace`, not just a suffix
strip), and returns at most `top` of them, in fetched order. -/
theorem document_name_lookup_characterized :
    (∀ query : String, is_document_name query = true ↔
      ((pySplit (pyStrip query)).length ≤ 2 ∧ pyContains query "_" = true ∧
        ∀ w ∈ content_keywords, pyContains (pyLower query) w = false)) ∧
    (∀ (b : SearchBackend) (query : String) (top : Nat) (all_results : List SearchDoc),
      is_document_name query = true → b.simpleSearch "*" 50 = .ok all_results →
      search_documents b query top = .ok (formatResults (docNameResults all_results query top))) ∧
    (∀ (all_results : List SearchDoc) (query : String) (top : Nat),
      (docNameResults all_results query top).length ≤ top ∧
      List.Sublist (docNameResults all_results query top) all_results ∧
      ∀ r ∈ docNameResults all_results query top, titleMatches (doc_name query) r = true) := by
  refine ⟨?_, ?_, ?_⟩
  · intro query
    unfold is_document_name
    dsimp only
    simp only [Bool.and_eq_true, decide_eq_true_eq, Bool.not_eq_true', List.any_eq_false,
      Bool.not_eq_true]
    tauto
  · intro b query top all_results hq hfetch
    unfold search_documents
    dsimp only
    rw [if_pos hq, hfetch]
    rfl
  · intro all_results query top
    refine ⟨?_, ?_, ?_⟩
    · unfold docNameResults
      rw [List.length_take]
      exact min_le_left _ _
    · exact (List.take_sublist _ _).trans (List.filter_sublist _)
    · intro r hr
      exact (List.mem_filter.mp (List.mem_of_mem_take hr)).2

/-- A document whose title equals the code's computed doc name for the
counterexample query. -/
def pdfDoc : SearchDoc := ⟨some "a_b", some "chunk"⟩

/-- A backend whose wildcard fetch returns exactly `[pdfDoc]`. -/
def wildcardBackend : SearchBackend :=
  { simpleSearch := fun _ _ => .ok [pdfDoc], hybridSearch := fun _ _ => .ok [] }

/-- Witness for the amended C10 on a concrete backend and document-name
query. -/
theorem document_name_lookup_witness :
    search_documents wildcardBackend "a.pdf_b" 5
      = .ok (formatResults (docNameResults [pdfDoc] "a.pdf_b" 5)) ∧
    search_documents wildcardBackend "a.pdf_b" 5 = .ok [⟨"a_b", "chunk"⟩] :=
  have h := document_name_lookup_characterized.2.1 wildcardBackend "a.pdf_b" 5 [pdfDoc]
    (by decide) rfl
  ⟨h, by rw [h]; rfl⟩

/-- C10 counterexample: the query "a.pdf_b" is classified as a document
name; the code removes the inner ".pdf" occurrence, giving
`doc_name = "a_b"`, while the claim's suffix-strip leaves "a.pdf_b"
unchanged, and on the concrete fetched list `[pdfDoc]` the code's filter
keeps the document where the claim's filter would return none. -/
theorem pdf_replace_not_suffix_counterexample :
    is_document_name "a.pdf_b" = true ∧
    doc_name "a.pdf_b" = "a_b" ∧
    docNameClaimed "a.pdf_b" = "a.pdf_b" ∧
    docNameResults [pdfDoc] "a.pdf_b" 5 = [pdfDoc] ∧
    docNameResultsClaimed [pdfDoc] "a.pdf_b" 5 = [] := by
  refine ⟨by decide, by decide, by decide, by decide, by decide⟩

end FrontierAgentsWorkshop
